import Mathlib

/-
Verification development for the GIF resizer's size-constrained re-encoding core
(`gif_processor.py`, `utils.py`, `constants.py`).

Shallow embedding conventions:
* A decoded animation (`PIL Image` opened from GIF bytes) is a `SourceGif`:
  its decodable frame sequence plus the duration/loop metadata extracted by
  `_extract_gif_info`.  Seeking frame `i` succeeds exactly when `i` is below
  the frame count; seeking past the end raises `EOFError`, which the code
  turns into loop exits.
* Encoded GIF bytes are a `GifBytes`: the frame sequence and metadata that
  the encoder serialized, together with the byte length `size`.  The byte
  length produced by PIL's `save` is not computed by this repository, so it
  is abstracted as a parameter `encSize : List Frame → SaveKwargs → Nat`
  supplied to every function that encodes; all theorems quantify over it.
* The optional `pygifsicle` facility is a `PygEnv`: an availability flag
  (the module-level `PYGIFSICLE_AVAILABLE`) plus an abstract optimizer run
  `run : Nat → GifBytes → Option GifBytes` where `none` models the
  `optimize` call (or the subsequent temp-file read) raising.
* Python exceptions are `Except String`; error message texts are rendered
  in English with the same information content as the Japanese f-strings.
* Python truthiness of the `max_frames` argument matters: `None` and `0`
  are both falsy in `if max_frames and frame_index >= max_frames:`; this is
  modelled by `pyTruthy`.
-/

namespace GifResizer

/-! ### Constants (`constants.py`) -/

def SLACK_STAMP_MAX_SIZE_KB : Nat := 128

def SLACK_STAMP_MAX_SIZE_BYTES : Nat := SLACK_STAMP_MAX_SIZE_KB * 1024

def SLACK_STAMP_SIZE : Int := 128

def SLACK_STAMP_MAX_FRAMES : Nat := 50

def MIN_IMAGE_SIZE : Int := 10

def MAX_IMAGE_SIZE : Int := 2000

def DEFAULT_DURATION : Nat := 100

def DEFAULT_LOOP : Nat := 0

def SLACK_OPTIMIZATION_QUALITY_START : Nat := 30

def SLACK_OPTIMIZATION_QUALITY_MIN : Nat := 5

def SLACK_OPTIMIZATION_QUALITY_STEP : Nat := 5

def SLACK_OPTIMIZATION_DURATION_MAX : Nat := 50

def SLACK_AGGRESSIVE_MAX_FRAMES : Nat := 20

def SLACK_AGGRESSIVE_DURATION : Nat := 30

/-- `PYGIFSICLE_OPTIMIZATION_LEVELS.get(level, 1)`: the dict maps
standard/optimized/aggressive to 1/2/3 with default 1. -/
def PYGIFSICLE_OPTIMIZATION_LEVELS (level : String) : Nat :=
  if level = "standard" then 1
  else if level = "optimized" then 2
  else if level = "aggressive" then 3
  else 1

/-! ### Data model -/

/-- One decoded animation frame.  Pixel content is abstracted to an
identifier; the attributes the code manipulates (geometry via `resize`,
palette depth via `quantize`) are tracked explicitly. -/
structure Frame where
  id : Nat
  width : Int
  height : Int
  colors : Nat
deriving Repr, DecidableEq

/-- Metadata extracted by `_extract_gif_info` (with defaults applied). -/
structure GifMeta where
  duration : Nat
  loop : Nat
deriving Repr, DecidableEq

/-- A decoded multi-frame source image (`Image.open` on GIF bytes). -/
structure SourceGif where
  frames : List Frame
  meta : GifMeta
deriving Repr, DecidableEq

/-- The keyword bundle handed to PIL `save` (`save_kwargs`); `format`,
`save_all` and `optimize=True` are constant and omitted. -/
structure SaveKwargs where
  duration : Nat
  loop : Nat
  quality : Option Nat
  transparency : Option Nat
  disposal : Option Nat
deriving Repr, DecidableEq

/-- Encoded GIF container bytes: the serialized frame sequence and timing
metadata, plus the byte length. -/
structure GifBytes where
  frames : List Frame
  duration : Nat
  loop : Nat
  size : Nat
deriving Repr, DecidableEq

/-- The optional external optimizer facility (`pygifsicle`). `run lvl b`
is the outcome of `optimize(path, optimization_level=lvl)` on a temp file
holding `b` followed by reading the file back: `some b'` on success,
`none` when it raises. -/
structure PygEnv where
  available : Bool
  run : Nat → GifBytes → Option GifBytes

/-- `frame_count` read by sequentially seeking until `EOFError`
(`get_frame_count` / the probing loop in `get_gif_info`). -/
def get_frame_count (b : GifBytes) : Nat := b.frames.length

/-- `frame.resize((w, h), LANCZOS)`. -/
def resizeFrame (w h : Int) (f : Frame) : Frame := { f with width := w, height := h }

/-- `frame.quantize(colors=c, method=2)`. -/
def quantize (c : Nat) (f : Frame) : Frame := { f with colors := c }

/-- Python truthiness of the `max_frames` argument: `None` and `0` are falsy. -/
def pyTruthy : Option Nat → Bool
  | none => false
  | some m => m != 0

/-! ### `utils.validate_image_size` -/

def sizeTooSmallMsg : String := "Image size too small: minimum 10px required."

def sizeTooLargeMsg : String := "Image size too large: maximum 2000px supported."

/-- `validate_image_size(width, height) -> (is_valid, error_message)`. -/
def validate_image_size (width height : Int) : Bool × Option String :=
  if width < MIN_IMAGE_SIZE ∨ height < MIN_IMAGE_SIZE then
    (false, some sizeTooSmallMsg)
  else if width > MAX_IMAGE_SIZE ∨ height > MAX_IMAGE_SIZE then
    (false, some sizeTooLargeMsg)
  else
    (true, none)

/-! ### The frame collection loop of `GIFProcessor.resize` (lines 106-122)

`frame_index` starts at 0; each pass first breaks when the cap is truthy
and reached, then seeks `frame_index` (break on `EOFError`), resizes the
frame and appends it.  Structural recursion over the remaining decodable
frames: the list is empty exactly when the seek raises `EOFError`. -/

def frameLoop (w h : Int) (mf : Option Nat) : Nat → List Frame → List Frame
  | _, [] => []
  | idx, f :: rest =>
    if pyTruthy mf = true ∧ mf.getD 0 ≤ idx then []
    else resizeFrame w h f :: frameLoop w h mf (idx + 1) rest

/-- PIL `frames[0].save(output, **save_kwargs)` with
`append_images = frames[1:]`: serializes the given frame sequence with the
given parameters; the resulting byte length is supplied by `encSize`. -/
def save (encSize : List Frame → SaveKwargs → Nat) (frames : List Frame)
    (k : SaveKwargs) : GifBytes :=
  { frames := frames, duration := k.duration, loop := k.loop, size := encSize frames k }

/-! ### `GIFProcessor.optimize_with_pygifsicle` (lines 368-404)

The temp-file life cycle is tracked explicitly: the file system state is
the list of existing temp-file names.  `NamedTemporaryFile(delete=False)`
creates a fresh file; `os.unlink` is executed only on the success path of
the `try:` block - there is no `finally:`. -/

def optimize_with_pygifsicle_fs (pyg : PygEnv) (gif_bytes : GifBytes)
    (optimization_level : String) (fs : List Nat) : GifBytes × List Nat :=
  if pyg.available = false then
    (gif_bytes, fs)
  else
    let temp_file_path := fs.length
    let fs1 := temp_file_path :: fs
    match pyg.run (PYGIFSICLE_OPTIMIZATION_LEVELS optimization_level) gif_bytes with
    | some optimized_bytes => (optimized_bytes, fs1.erase temp_file_path)
    | none => (gif_bytes, fs1)

/-- The byte-level view of `optimize_with_pygifsicle` (the value returned
to the caller). -/
def optimize_with_pygifsicle (pyg : PygEnv) (gif_bytes : GifBytes)
    (optimization_level : String) : GifBytes :=
  (optimize_with_pygifsicle_fs pyg gif_bytes optimization_level []).1

/-! ### The quality-descent loop of `GIFProcessor.resize` (lines 168-178)

`while len(result_bytes) > SLACK_STAMP_MAX_SIZE_BYTES and quality >
SLACK_OPTIMIZATION_QUALITY_MIN: quality -= STEP; re-save`.  Each pass
lowers `quality` by `STEP = 5`, so the loop runs fewer than `quality`
passes; the fuel is initialized to the starting quality and provably
never runs out (`qdAux_fuel_ge` below makes the exit states explicit). -/

def qdAux (enc : Nat → GifBytes) : Nat → GifBytes → Nat → GifBytes × Nat
  | 0, b, q => (b, q)
  | fuel + 1, b, q =>
    if b.size > SLACK_STAMP_MAX_SIZE_BYTES ∧ q > SLACK_OPTIMIZATION_QUALITY_MIN then
      qdAux enc fuel (enc (q - SLACK_OPTIMIZATION_QUALITY_STEP))
        (q - SLACK_OPTIMIZATION_QUALITY_STEP)
    else (b, q)

/-- The loop of lines 168-178: final `(result_bytes, quality)` given the
re-encode function, the bytes of the initial save and the start quality. -/
def quality_descent (enc : Nat → GifBytes) (b : GifBytes) (q : Nat) : GifBytes × Nat :=
  qdAux enc q b q

/-- The qualities attempted by the re-encodes of the descent loop, in
order (the starting quality's encode happened before the loop). -/
def qdPathAux (enc : Nat → GifBytes) : Nat → GifBytes → Nat → List Nat
  | 0, _, _ => []
  | fuel + 1, b, q =>
    if b.size > SLACK_STAMP_MAX_SIZE_BYTES ∧ q > SLACK_OPTIMIZATION_QUALITY_MIN then
      (q - SLACK_OPTIMIZATION_QUALITY_STEP) ::
        qdPathAux enc fuel (enc (q - SLACK_OPTIMIZATION_QUALITY_STEP))
          (q - SLACK_OPTIMIZATION_QUALITY_STEP)
    else []

def quality_descent_path (enc : Nat → GifBytes) (b : GifBytes) (q : Nat) : List Nat :=
  qdPathAux enc q b q

/-- The maximal descent sequence below a start quality (every quality the
loop could ever attempt, in order). -/
def stepsBelow : Nat → Nat → List Nat
  | 0, _ => []
  | fuel + 1, q =>
    if SLACK_OPTIMIZATION_QUALITY_MIN < q then
      (q - SLACK_OPTIMIZATION_QUALITY_STEP) ::
        stepsBelow fuel (q - SLACK_OPTIMIZATION_QUALITY_STEP)
    else []

/-! ### `GIFProcessor.resize` (lines 78-194) -/

def noValidFramesMsg : String := "No valid frames were found."

def saveErrMsg : String := "An error occurred while saving the GIF."

def resize (encSize : List Frame → SaveKwargs → Nat) (pyg : PygEnv) (src : SourceGif)
    (new_width new_height : Int) (optimize_for_slack : Bool) (max_frames : Option Nat) :
    Except String GifBytes :=
  if (validate_image_size new_width new_height).1 = true then
    let frames0 := frameLoop new_width new_height max_frames 0 src.frames
    match frames0 with
    | [] => Except.error noValidFramesMsg
    | _ :: _ =>
      -- line 130-132: `if optimize_for_slack and max_frames: frames = frames[:max_frames]`
      let frames1 :=
        if optimize_for_slack = true ∧ pyTruthy max_frames = true then
          frames0.take (max_frames.getD 0)
        else frames0
      match frames1 with
      | [] => Except.error saveErrMsg  -- frames[0] IndexError, caught at line 185
      | f0 :: rest =>
        if optimize_for_slack = true then
          -- save_kwargs captured `append_images = frames[1:]` before the in-place
          -- quantization rebound the list slots, so the appended frames are the
          -- pre-quantization objects; only frames[0] is saved quantized.
          let k1 : SaveKwargs :=
            { duration := min src.meta.duration SLACK_OPTIMIZATION_DURATION_MAX
              loop := src.meta.loop
              quality := some SLACK_OPTIMIZATION_QUALITY_START
              transparency := some 0
              disposal := some 2 }
          let savedFrames := quantize 128 f0 :: rest
          let enc := fun q =>
            save encSize savedFrames { k1 with quality := some q }
          let b0 := save encSize savedFrames k1
          let swept := quality_descent enc b0 SLACK_OPTIMIZATION_QUALITY_START
          Except.ok (optimize_with_pygifsicle pyg swept.1 "optimized")
        else
          let k0 : SaveKwargs :=
            { duration := src.meta.duration, loop := src.meta.loop
              quality := none, transparency := none, disposal := none }
          let b := save encSize (f0 :: rest) k0
          Except.ok (if pyg.available = true then optimize_with_pygifsicle pyg b "standard" else b)
  else Except.error ((validate_image_size new_width new_height).2.getD "")

/-! ### `GIFProcessor._force_optimize_for_slack` (lines 271-297) -/

/-- `GIFProcessor(gif_bytes)`: re-decoding encoded bytes yields their frame
sequence and metadata. -/
def toSource (b : GifBytes) : SourceGif :=
  { frames := b.frames, meta := { duration := b.duration, loop := b.loop } }

def force_optimize_for_slack (encSize : List Frame → SaveKwargs → Nat) (pyg : PygEnv)
    (gif_bytes : GifBytes) : Except String GifBytes :=
  resize encSize pyg (toSource gif_bytes) SLACK_STAMP_SIZE SLACK_STAMP_SIZE true
    (some (min SLACK_STAMP_MAX_FRAMES SLACK_AGGRESSIVE_MAX_FRAMES))

/-! ### `GIFProcessor._ultra_optimize_for_slack` (lines 299-366) -/

def ultraErrMsg : String := "An error occurred during ultra optimization."

/-- The frame-striding loop (lines 317-333): `while frame_index < 10`,
`gif.seek(frame_index * 2)` (break on `EOFError`), resize to the stamp
geometry and quantize to 64 colors.  The fuel counts the iterations left
before the absolute cap of 10 frames. -/
def ultraStrideAux (fs : List Frame) : Nat → Nat → List Frame
  | 0, _ => []
  | fuel + 1, frame_index =>
    match fs.get? (frame_index * 2) with
    | some f =>
      quantize 64 (resizeFrame SLACK_STAMP_SIZE SLACK_STAMP_SIZE f) ::
        ultraStrideAux fs fuel (frame_index + 1)
    | none => []

def ultraStride (fs : List Frame) : List Frame := ultraStrideAux fs 10 0

/-- The `save_kwargs` of the ultra rung (lines 345-355): 30 ms duration,
loop 0, quality fixed at 1, transparency 0, disposal 2. -/
def ultraSaveKwargs : SaveKwargs :=
  { duration := SLACK_AGGRESSIVE_DURATION, loop := 0
    quality := some 1, transparency := some 0, disposal := some 2 }

def ultra_optimize_for_slack (encSize : List Frame → SaveKwargs → Nat) (pyg : PygEnv)
    (gif_bytes : GifBytes) : Except String GifBytes :=
  let frames := ultraStride gif_bytes.frames
  let frames2 : Option (List Frame) :=
    match frames with
    | [] =>
      -- fallback (lines 335-341): seek frame 0, quantize to 32 colors;
      -- `seek(0)` raises when there is no frame at all, and the outer
      -- `except` turns that into the descriptive ValueError.
      match gif_bytes.frames.get? 0 with
      | some f => some [quantize 32 (resizeFrame SLACK_STAMP_SIZE SLACK_STAMP_SIZE f)]
      | none => none
    | fs => some fs
  match frames2 with
  | none => Except.error ultraErrMsg
  | some fs =>
    Except.ok (optimize_with_pygifsicle pyg (save encSize fs ultraSaveKwargs) "aggressive")

/-! ### `GIFProcessor.create_slack_stamp`, "lightweight" branch (lines 226-266) -/

/-- The descriptive error of lines 262-264: reports the achieved size and
the configured ceiling. -/
def constraintErrorMsg (achieved : Nat) : String :=
  "Slack stamp size limit of " ++ toString SLACK_STAMP_MAX_SIZE_KB ++
    "KB exceeded; current size: " ++ toString achieved ++
    " bytes. The original file is too large to compress below the limit."

/-- One pass of the `for step_name, optimize_func in optimization_steps:`
loop (lines 241-257): the rung result is measured; within-limit bytes are
returned; over-limit non-first rungs are re-optimized aggressively and
re-measured; a rung that raised is caught (`except ... continue`) and the
ladder moves on. -/
def ladderRun (pyg : PygEnv) : List (Bool × Except String GifBytes) → Option GifBytes
  | [] => none
  | step :: rest =>
    match step.2 with
    | Except.error _ => ladderRun pyg rest
    | Except.ok current_result =>
      if current_result.size ≤ SLACK_STAMP_MAX_SIZE_BYTES then some current_result
      else if step.1 = true then ladderRun pyg rest
      else
        let current2 := optimize_with_pygifsicle pyg current_result "aggressive"
        if current2.size ≤ SLACK_STAMP_MAX_SIZE_BYTES then some current2
        else ladderRun pyg rest

/-- The `optimization_steps` list built at lines 235-239, with each step's
lambda evaluated to its outcome. -/
def lightweightSteps (encSize : List Frame → SaveKwargs → Nat) (pyg : PygEnv)
    (result : GifBytes) : List (Bool × Except String GifBytes) :=
  [(true, Except.ok result),
   (false, force_optimize_for_slack encSize pyg result),
   (false, ultra_optimize_for_slack encSize pyg result)]

/-- Lines 232-266: everything after the initial slack resize succeeded. -/
def lightweight_afterResize (encSize : List Frame → SaveKwargs → Nat) (pyg : PygEnv)
    (r0 : GifBytes) : Except String GifBytes :=
  let result := optimize_with_pygifsicle pyg r0 "aggressive"
  match ladderRun pyg (lightweightSteps encSize pyg result) with
  | some b => Except.ok b
  | none =>
    match ultra_optimize_for_slack encSize pyg result with
    | Except.error e => Except.error e
    | Except.ok final_result =>
      if final_result.size > SLACK_STAMP_MAX_SIZE_BYTES then
        Except.error (constraintErrorMsg final_result.size)
      else Except.ok final_result

/-- `create_slack_stamp("lightweight")` (lines 226-266). -/
def create_slack_stamp_lightweight (encSize : List Frame → SaveKwargs → Nat)
    (pyg : PygEnv) (src : SourceGif) : Except String GifBytes :=
  match resize encSize pyg src SLACK_STAMP_SIZE SLACK_STAMP_SIZE true
      (some SLACK_STAMP_MAX_FRAMES) with
  | Except.error e => Except.error e
  | Except.ok r0 => lightweight_afterResize encSize pyg r0

/-- The frame count the round-trip claim has to produce, as the code
computes it: a truthy cap `c ≥ 1` keeps `min n c` frames, `None` and the
falsy cap `0` keep all `n`. -/
def expected_frame_count (n : Nat) : Option Nat → Nat
  | none => n
  | some m => if m = 0 then n else min n m

/-! ### `utils.calculate_aspect_ratio` / `utils.adjust_size_for_aspect_ratio`

The Python functions compute with IEEE-754 double division (`/`) and
truncation (`int(...)`).  The definitions below replace the doubles with
exact rational arithmetic; they support the discussion of claim C10 but
are *not* a faithful model of the float rounding behavior. -/

def calculate_aspect_ratio_rat (width height : Int) : ℚ :=
  if height = 0 then 1 else (width : ℚ) / (height : ℚ)

def adjust_size_for_aspect_ratio_rat (target_width target_height original_width
    original_height : Int) : Int × Int :=
  let ar : ℚ := calculate_aspect_ratio_rat original_width original_height
  let tr : ℚ := calculate_aspect_ratio_rat target_width target_height
  if ar < tr then
    (⌊(target_height : ℚ) * ar⌋, target_height)
  else
    (target_width, ⌊(target_width : ℚ) / ar⌋)

/-! ### Concrete fixtures used by witnesses and counterexamples -/

def enc0 : List Frame → SaveKwargs → Nat := fun _ _ => 0

def pyg0 : PygEnv := { available := false, run := fun _ _ => none }

def src1 : SourceGif := { frames := [{ id := 0, width := 10, height := 10, colors := 256 }],
                          meta := { duration := 100, loop := 0 } }

def src3 : SourceGif :=
  { frames := [{ id := 0, width := 10, height := 10, colors := 256 },
               { id := 1, width := 10, height := 10, colors := 256 },
               { id := 2, width := 10, height := 10, colors := 256 }],
    meta := { duration := 100, loop := 0 } }

def encBig : List Frame → SaveKwargs → Nat := fun _ _ => 200000

def junkB : GifBytes := { frames := [], duration := 7, loop := 0, size := 999999 }

def pygJunk : PygEnv := { available := true, run := fun _ _ => some junkB }

/-! ## Helper lemmas -/

/-- When the cap is falsy (`None` or `0`), the frame loop resizes every
decodable frame. -/
theorem frameLoop_falsy (w h : Int) (mf : Option Nat) (hmf : pyTruthy mf = false) :
    ∀ (fs : List Frame) (idx : Nat), frameLoop w h mf idx fs = fs.map (resizeFrame w h) := by
  intro fs
  induction fs with
  | nil => intro idx; rfl
  | cons f rest ih =>
    intro idx
    rw [frameLoop, if_neg]
    · rw [ih (idx + 1)]; rfl
    · rintro ⟨h1, _⟩; rw [hmf] at h1; exact Bool.false_ne_true h1

/-- With a truthy cap `m`, the frame loop keeps `min (m - idx) |fs|` frames. -/
theorem frameLoop_truthy_length (w h : Int) (m : Nat) (hm : 0 < m) :
    ∀ (fs : List Frame) (idx : Nat),
      (frameLoop w h (some m) idx fs).length = min (m - idx) fs.length := by
  intro fs
  induction fs with
  | nil => intro idx; simp [frameLoop]
  | cons f rest ih =>
    intro idx
    rw [frameLoop]
    by_cases hidx : m ≤ idx
    · rw [if_pos]
      · simp; omega
      · refine ⟨?_, hidx⟩
        simp [pyTruthy]; omega
    · rw [if_neg]
      · have := ih (idx + 1)
        simp only [List.length_cons, this]
        omega
      · rintro ⟨_, h2⟩
        exact hidx (by simpa using h2)

/-- An optimizer run that preserves the frame count keeps the frame count
of `optimize_with_pygifsicle` equal to its input's. -/
theorem optimize_preserves_frame_length (pyg : PygEnv)
    (hpres : ∀ lvl g g', pyg.run lvl g = some g' → g'.frames.length = g.frames.length)
    (b : GifBytes) (lvl : String) :
    (optimize_with_pygifsicle pyg b lvl).frames.length = b.frames.length := by
  rw [optimize_with_pygifsicle, optimize_with_pygifsicle_fs]
  by_cases hav : pyg.available = false
  · rw [if_pos hav]
  · rw [if_neg hav]
    cases hrun : pyg.run (PYGIFSICLE_OPTIMIZATION_LEVELS lvl) b with
    | none => simp
    | some b' => simpa using hpres _ _ _ hrun

/-- Any property preserved by every re-encode of the descent loop holds of
the loop's final bytes. -/
theorem qdAux_inv (enc : Nat → GifBytes) (P : GifBytes → Prop)
    (henc : ∀ q, P (enc q)) :
    ∀ (fuel : Nat) (b : GifBytes) (q : Nat), P b → P (qdAux enc fuel b q).1 := by
  intro fuel
  induction fuel with
  | zero => intro b q hb; exact hb
  | succ n ih =>
    intro b q hb
    rw [qdAux]
    by_cases hc : b.size > SLACK_STAMP_MAX_SIZE_BYTES ∧ q > SLACK_OPTIMIZATION_QUALITY_MIN
    · rw [if_pos hc]; exact ih _ _ (henc _)
    · rw [if_neg hc]; exact hb

/-- Exit states of the descent loop: starting at a multiple of the step
that is at least the floor, with fuel at least the iteration count, the
loop ends within the ceiling or exactly at the quality floor. -/
theorem qdAux_fuel_ge (enc : Nat → GifBytes) :
    ∀ (fuel : Nat) (b : GifBytes) (q : Nat),
      SLACK_OPTIMIZATION_QUALITY_MIN ≤ q → q % 5 = 0 → q ≤ 5 * fuel + 5 →
      (qdAux enc fuel b q).1.size ≤ SLACK_STAMP_MAX_SIZE_BYTES ∨
        (qdAux enc fuel b q).2 = SLACK_OPTIMIZATION_QUALITY_MIN := by
  intro fuel
  induction fuel with
  | zero =>
    intro b q hq hmod hle
    right
    rw [qdAux]
    show q = 5
    have hq' : (5 : Nat) ≤ q := hq
    omega
  | succ n ih =>
    intro b q hq hmod hle
    rw [qdAux]
    by_cases hc : b.size > SLACK_STAMP_MAX_SIZE_BYTES ∧ q > SLACK_OPTIMIZATION_QUALITY_MIN
    · rw [if_pos hc]
      have hq5 : 5 < q := hc.2
      refine ih _ _ ?_ ?_ ?_
      · show (5 : Nat) ≤ q - 5
        omega
      · show (q - 5) % 5 = 0
        omega
      · show q - 5 ≤ 5 * n + 5
        omega
    · rw [if_neg hc]
      by_cases hs : b.size ≤ SLACK_STAMP_MAX_SIZE_BYTES
      · exact Or.inl hs
      · right
        have hq5 : ¬ (5 : Nat) < q := fun h5 => hc ⟨by omega, h5⟩
        show q = 5
        have hq' : (5 : Nat) ≤ q := hq
        omega

/-- The attempted-quality path is a prefix of the maximal descent sequence. -/
theorem qdPathAux_prefix (enc : Nat → GifBytes) :
    ∀ (fuel : Nat) (b : GifBytes) (q : Nat),
      qdPathAux enc fuel b q <+: stepsBelow fuel q := by
  intro fuel
  induction fuel with
  | zero => intro b q; exact List.nil_prefix
  | succ n ih =>
    intro b q
    rw [qdPathAux, stepsBelow]
    by_cases hc : b.size > SLACK_STAMP_MAX_SIZE_BYTES ∧ q > SLACK_OPTIMIZATION_QUALITY_MIN
    · rw [if_pos hc, if_pos hc.2]
      exact List.cons_prefix_cons.mpr ⟨rfl, ih _ _⟩
    · rw [if_neg hc]
      exact List.nil_prefix

/-- A ladder pass only ever returns bytes it has measured to be within the
ceiling. -/
theorem ladderRun_le (pyg : PygEnv) :
    ∀ (steps : List (Bool × Except String GifBytes)) (b : GifBytes),
      ladderRun pyg steps = some b → b.size ≤ SLACK_STAMP_MAX_SIZE_BYTES := by
  intro steps
  induction steps with
  | nil => intro b h; rw [ladderRun] at h; exact Option.noConfusion h
  | cons step rest ih =>
    intro b h
    cases hs : step.2 with
    | error e =>
      simp only [ladderRun, hs] at h
      exact ih b h
    | ok current =>
      simp only [ladderRun, hs] at h
      by_cases h1 : current.size ≤ SLACK_STAMP_MAX_SIZE_BYTES
      · rw [if_pos h1] at h
        exact (Option.some.inj h) ▸ h1
      · rw [if_neg h1] at h
        by_cases hf : step.1 = true
        · rw [if_pos hf] at h
          exact ih b h
        · rw [if_neg hf] at h
          by_cases h2 : (optimize_with_pygifsicle pyg current "aggressive").size ≤
              SLACK_STAMP_MAX_SIZE_BYTES
          · rw [if_pos h2] at h
            exact (Option.some.inj h) ▸ h2
          · rw [if_neg h2] at h
            exact ih b h

/-! ## Claim C3 - the QualitySweep rung -/

/-- C3: In the quality sweep, starting at quality 30, qualities are lowered
by exactly 5 while the encoded size exceeds the 131072-byte ceiling and the
quality is above the floor 5, so the attempted qualities form a prefix of
the strictly decreasing sequence 30, 25, 20, 15, 10, 5 (deterministic in
the re-encode function), there are at most 5 decrements, and the loop ends
with size within the ceiling or with quality exactly at the floor. -/
theorem quality_sweep_descent_spec (enc : Nat → GifBytes) (b0 : GifBytes) :
    (SLACK_OPTIMIZATION_QUALITY_START ::
        quality_descent_path enc b0 SLACK_OPTIMIZATION_QUALITY_START) <+:
      [30, 25, 20, 15, 10, 5]
    ∧ (quality_descent_path enc b0 SLACK_OPTIMIZATION_QUALITY_START).length ≤ 5
    ∧ ((quality_descent enc b0 SLACK_OPTIMIZATION_QUALITY_START).1.size ≤
          SLACK_STAMP_MAX_SIZE_BYTES ∨
        (quality_descent enc b0 SLACK_OPTIMIZATION_QUALITY_START).2 =
          SLACK_OPTIMIZATION_QUALITY_MIN) := by
  have hpre : quality_descent_path enc b0 SLACK_OPTIMIZATION_QUALITY_START <+:
      [25, 20, 15, 10, 5] := by
    have h := qdPathAux_prefix enc 30 b0 30
    have hsteps : stepsBelow 30 30 = [25, 20, 15, 10, 5] := by decide
    rw [hsteps] at h
    exact h
  refine ⟨?_, ?_, ?_⟩
  · exact List.cons_prefix_cons.mpr ⟨rfl, hpre⟩
  · have := hpre.length_le
    simpa using this
  · exact qdAux_fuel_ge enc 30 b0 30 (by decide) (by decide) (by decide)

/-! ## Claim C4 - geometry validation -/

/-- C4: `validate_image_size` rejects exactly when a dimension is below 10
or above 2000, and on rejection `resize` raises the validation error
before any decoding or resampling: the result is the validation error and
is independent of the source image, the encoder and the optimizer. -/
theorem validate_image_size_bounds_and_fail_fast (w h : Int) :
    ((validate_image_size w h).1 = false ↔ (w < 10 ∨ h < 10 ∨ 2000 < w ∨ 2000 < h))
    ∧ ((validate_image_size w h).1 = false →
        ∀ (encSize : List Frame → SaveKwargs → Nat) (pyg : PygEnv) (src : SourceGif)
          (slack : Bool) (mf : Option Nat),
          resize encSize pyg src w h slack mf =
            Except.error ((validate_image_size w h).2.getD "")) := by
  constructor
  · by_cases h1 : w < MIN_IMAGE_SIZE ∨ h < MIN_IMAGE_SIZE
    · have hv : validate_image_size w h = (false, some sizeTooSmallMsg) := by
        rw [validate_image_size, if_pos h1]
      rw [hv]
      simp only [MIN_IMAGE_SIZE] at h1
      exact ⟨fun _ => by omega, fun _ => rfl⟩
    · by_cases h2 : w > MAX_IMAGE_SIZE ∨ h > MAX_IMAGE_SIZE
      · have hv : validate_image_size w h = (false, some sizeTooLargeMsg) := by
          rw [validate_image_size, if_neg h1, if_pos h2]
        rw [hv]
        simp only [MAX_IMAGE_SIZE] at h2
        exact ⟨fun _ => by omega, fun _ => rfl⟩
      · have hv : validate_image_size w h = (true, none) := by
          rw [validate_image_size, if_neg h1, if_neg h2]
        rw [hv]
        simp only [MIN_IMAGE_SIZE] at h1
        simp only [MAX_IMAGE_SIZE] at h2
        refine ⟨fun hft => Bool.noConfusion hft, fun hb => absurd hb (by omega)⟩
  · intro hv encSize pyg src slack mf
    rw [resize, if_neg]
    rw [hv]
    exact Bool.false_ne_true

/-- Witness for C4 at the spec's own scenario, geometry (5, 100): the
validation fails and `resize` returns the validation error untouched by
any decode work. -/
theorem validate_fail_fast_witness :
    resize enc0 pyg0 src1 5 100 false none = Except.error sizeTooSmallMsg :=
  (validate_image_size_bounds_and_fail_fast 5 100).2 (by decide) enc0 pyg0 src1 false none

/-! ## Claim C7 - optimizer faults are absorbed -/

/-- C7: whenever the pygifsicle facility is unavailable, or the
optimization pass on the given bytes raises, `optimize_with_pygifsicle`
returns the original input bytes unchanged (its return type is plain
bytes, so no fault ever propagates to the caller). -/
theorem optimizer_failure_returns_original (pyg : PygEnv) (b : GifBytes) (lvl : String)
    (hfail : pyg.available = false ∨
      pyg.run (PYGIFSICLE_OPTIMIZATION_LEVELS lvl) b = none) :
    optimize_with_pygifsicle pyg b lvl = b := by
  rw [optimize_with_pygifsicle, optimize_with_pygifsicle_fs]
  rcases hfail with hav | hrun
  · rw [if_pos hav]
  · by_cases hav : pyg.available = false
    · rw [if_pos hav]
    · rw [if_neg hav, hrun]

/-- Witness for C7: a concrete always-throwing optimizer leaves concrete
input bytes unchanged. -/
theorem optimizer_failure_witness :
    optimize_with_pygifsicle { available := true, run := fun _ _ => none } junkB
      "standard" = junkB :=
  optimizer_failure_returns_original _ junkB "standard" (Or.inr rfl)

/-! ## Claim C8 - temp file life cycle (code bug) -/

/-- C8 (code bug evaluation): when the optimizer is available but its run
raises, the temp file created before the call is still present afterwards
(the `os.unlink` sits on the success path only; there is no `finally:`),
whereas the success path does remove it. -/
theorem temp_file_leak_on_optimizer_fault :
    (optimize_with_pygifsicle_fs { available := true, run := fun _ _ => none }
        junkB "standard" []).2 = [0]
    ∧ (optimize_with_pygifsicle_fs { available := true, run := fun _ _ => some junkB }
        junkB "standard" []).2 = [] := by
  constructor
  · rfl
  · rfl

/-! ## Claim C1 - the lightweight path never returns over-limit bytes -/

/-- Successful results of the post-resize lightweight pipeline are within
the ceiling. -/
theorem lightweight_afterResize_ok_le (encSize : List Frame → SaveKwargs → Nat)
    (pyg : PygEnv) (r0 b : GifBytes)
    (hok : lightweight_afterResize encSize pyg r0 = Except.ok b) :
    b.size ≤ SLACK_STAMP_MAX_SIZE_BYTES := by
  unfold lightweight_afterResize at hok
  cases hlr : ladderRun pyg (lightweightSteps encSize pyg
      (optimize_with_pygifsicle pyg r0 "aggressive")) with
  | some b2 =>
    simp only [hlr] at hok
    exact (Except.ok.inj hok) ▸ ladderRun_le pyg _ b2 hlr
  | none =>
    simp only [hlr] at hok
    cases hu : ultra_optimize_for_slack encSize pyg
        (optimize_with_pygifsicle pyg r0 "aggressive") with
    | error e =>
      simp only [hu] at hok
      exact Except.noConfusion hok
    | ok final =>
      simp only [hu] at hok
      by_cases hsz : final.size > SLACK_STAMP_MAX_SIZE_BYTES
      · rw [if_pos hsz] at hok
        exact Except.noConfusion hok
      · rw [if_neg hsz] at hok
        exact (Except.ok.inj hok) ▸ Nat.le_of_not_lt hsz

/-- C1: in the lightweight (128 KiB-constrained) Slack-stamp path, every
successfully returned byte string is within the 131072-byte ceiling, for
every source, encoder and optimizer; and when the final rung's output
still exceeds the ceiling, the raised error is the descriptive message
reporting the achieved size against the ceiling. -/
theorem create_slack_stamp_lightweight_meets_ceiling
    (encSize : List Frame → SaveKwargs → Nat) (pyg : PygEnv) (src : SourceGif) :
    (∀ b, create_slack_stamp_lightweight encSize pyg src = Except.ok b →
      b.size ≤ SLACK_STAMP_MAX_SIZE_BYTES)
    ∧ (∀ r0 final,
        resize encSize pyg src SLACK_STAMP_SIZE SLACK_STAMP_SIZE true
            (some SLACK_STAMP_MAX_FRAMES) = Except.ok r0 →
        ladderRun pyg (lightweightSteps encSize pyg
            (optimize_with_pygifsicle pyg r0 "aggressive")) = none →
        ultra_optimize_for_slack encSize pyg
            (optimize_with_pygifsicle pyg r0 "aggressive") = Except.ok final →
        SLACK_STAMP_MAX_SIZE_BYTES < final.size →
        create_slack_stamp_lightweight encSize pyg src =
          Except.error (constraintErrorMsg final.size)) := by
  constructor
  · intro b hok
    rw [create_slack_stamp_lightweight] at hok
    cases hres : resize encSize pyg src SLACK_STAMP_SIZE SLACK_STAMP_SIZE true
        (some SLACK_STAMP_MAX_FRAMES) with
    | error e =>
      simp only [hres] at hok
      exact Except.noConfusion hok
    | ok r0 =>
      simp only [hres] at hok
      exact lightweight_afterResize_ok_le encSize pyg r0 b hok
  · intro r0 final hres hlr hu hsz
    rw [create_slack_stamp_lightweight]
    simp only [hres]
    unfold lightweight_afterResize
    simp only [hlr, hu]
    rw [if_pos hsz]

/-- The concrete lightweight output on `src1` with `enc0`/`pyg0`. -/
def c1WitnessBytes : GifBytes :=
  { frames := [{ id := 0, width := 128, height := 128, colors := 128 }]
    duration := 50, loop := 0, size := 0 }

/-- Witness for C1: on a concrete one-frame source with a zero-size
encoder and no optimizer, the lightweight path returns bytes, and the
theorem bounds their size. -/
theorem create_slack_stamp_lightweight_ceiling_witness :
    c1WitnessBytes.size ≤ SLACK_STAMP_MAX_SIZE_BYTES :=
  (create_slack_stamp_lightweight_meets_ceiling enc0 pyg0 src1).1 c1WitnessBytes rfl

/-! ## Claim C2 - rung errors do not abort the ladder (corrected) -/

/-- C2 counterexample: a run in which the FrameReduction rung raises a
hard decode error ("no valid frames", the spec's DecodeError) while the
whole invocation still continues into the UltraReduction rung and finally
fails with the *ultra* rung's error, not with the rung-2 error the claim
says should propagate.  The optimizer rewrites bytes to a frameless GIF,
which makes every later re-decode produce zero frames. -/
theorem rung_error_not_propagated_counterexample :
    resize encBig pygJunk src1 SLACK_STAMP_SIZE SLACK_STAMP_SIZE true
        (some SLACK_STAMP_MAX_FRAMES) = Except.ok junkB
    ∧ force_optimize_for_slack encBig pygJunk junkB = Except.error noValidFramesMsg
    ∧ create_slack_stamp_lightweight encBig pygJunk src1 = Except.error ultraErrMsg
    ∧ ultraErrMsg ≠ noValidFramesMsg := by
  refine ⟨rfl, rfl, rfl, ?_⟩
  decide

/-- C2 as amended: an exception raised inside a rung of the lightweight
ladder is caught and logged, and the ladder simply continues with the
remaining rungs - a failed rung contributes nothing and never aborts the
invocation by itself (only the initial resize and the final post-ladder
re-encode propagate their errors). -/
theorem ladder_continues_after_rung_error (pyg : PygEnv) (isFirstStep : Bool)
    (msg : String) (rest : List (Bool × Except String GifBytes)) :
    ladderRun pyg ((isFirstStep, Except.error msg) :: rest) = ladderRun pyg rest := rfl

/-! ## Claims C5/C6 - frame caps, zero frames and the frame-count round trip -/

/-- Whenever `resize` succeeds, the returned bytes hold at least one frame,
provided the external optimizer preserves frame counts. -/
theorem resize_ok_frames_pos (encSize : List Frame → SaveKwargs → Nat) (pyg : PygEnv)
    (src : SourceGif) (w h : Int) (slack : Bool) (mf : Option Nat) (out : GifBytes)
    (hpres : ∀ lvl g g', pyg.run lvl g = some g' → g'.frames.length = g.frames.length)
    (hok : resize encSize pyg src w h slack mf = Except.ok out) :
    0 < out.frames.length := by
  unfold resize at hok
  by_cases hv : (validate_image_size w h).1 = true
  · rw [if_pos hv] at hok
    cases hf0 : frameLoop w h mf 0 src.frames with
    | nil =>
      simp only [hf0] at hok
      exact Except.noConfusion hok
    | cons f0 rest0 =>
      simp only [hf0] at hok
      cases hf1 : (if slack = true ∧ pyTruthy mf = true then
          (f0 :: rest0).take (mf.getD 0) else (f0 :: rest0)) with
      | nil =>
        simp only [hf1] at hok
        exact Except.noConfusion hok
      | cons f1 rest1 =>
        simp only [hf1] at hok
        by_cases hs : slack = true
        · rw [if_pos hs] at hok
          have hout := Except.ok.inj hok
          have hframes : ∀ fuel bb q, bb.frames = quantize 128 f1 :: rest1 →
              (qdAux (fun q2 => save encSize (quantize 128 f1 :: rest1)
                  { duration := min src.meta.duration SLACK_OPTIMIZATION_DURATION_MAX
                    loop := src.meta.loop, quality := some q2
                    transparency := some 0, disposal := some 2 }) fuel bb q).1.frames =
                quantize 128 f1 :: rest1 := by
            intro fuel bb q hbb
            exact qdAux_inv _ (fun x => x.frames = quantize 128 f1 :: rest1)
              (fun _ => rfl) fuel bb q hbb
          rw [← hout]
          have hlen := optimize_preserves_frame_length pyg hpres
            ((quality_descent (fun q2 => save encSize (quantize 128 f1 :: rest1)
                { duration := min src.meta.duration SLACK_OPTIMIZATION_DURATION_MAX
                  loop := src.meta.loop, quality := some q2
                  transparency := some 0, disposal := some 2 })
              (save encSize (quantize 128 f1 :: rest1)
                { duration := min src.meta.duration SLACK_OPTIMIZATION_DURATION_MAX
                  loop := src.meta.loop, quality := some SLACK_OPTIMIZATION_QUALITY_START
                  transparency := some 0, disposal := some 2 })
              SLACK_OPTIMIZATION_QUALITY_START).1) "optimized"
          rw [hlen]
          rw [quality_descent] at *
          rw [hframes _ _ _ rfl]
          simp
        · rw [if_neg hs] at hok
          have hout := Except.ok.inj hok
          rw [← hout]
          by_cases hav : pyg.available = true
          · rw [if_pos hav]
            rw [optimize_preserves_frame_length pyg hpres]
            simp [save]
          · rw [if_neg hav]
            simp [save]
  · rw [if_neg hv] at hok
    exact Except.noConfusion hok

/-- C6 as amended: on the direct (non-slack) path, for every non-empty
source and valid geometry, inspecting the bytes produced by `resize`
yields the frame count the code's truthiness rules dictate: `min n c` for
a truthy cap `c ≥ 1`, and all `n` source frames when the cap is `None`
*or the falsy value `0`* (the optimizer is assumed frame-count
preserving, as a byte-level pass is). -/
theorem resize_frame_count_roundtrip_amended
    (encSize : List Frame → SaveKwargs → Nat) (pyg : PygEnv) (src : SourceGif)
    (w h : Int) (mf : Option Nat)
    (hpres : ∀ lvl g g', pyg.run lvl g = some g' → g'.frames.length = g.frames.length)
    (hvalid : (validate_image_size w h).1 = true) (hne : src.frames ≠ []) :
    (resize encSize pyg src w h false mf).map get_frame_count =
      Except.ok (expected_frame_count src.frames.length mf) := by
  have hnpos : 0 < src.frames.length := List.length_pos.mpr hne
  have hlen : (frameLoop w h mf 0 src.frames).length =
      expected_frame_count src.frames.length mf := by
    cases mf with
    | none =>
      rw [frameLoop_falsy w h none rfl, List.length_map]
      rfl
    | some m =>
      by_cases hm : m = 0
      · subst hm
        rw [frameLoop_falsy w h (some 0) rfl, List.length_map]
        rfl
      · have hm' : 0 < m := Nat.pos_of_ne_zero hm
        rw [frameLoop_truthy_length w h m hm']
        simp only [expected_frame_count, if_neg hm, Nat.sub_zero]
        omega
  cases hf0 : frameLoop w h mf 0 src.frames with
  | nil =>
    rw [hf0] at hlen
    rw [List.length_nil] at hlen
    have hexp : 0 < expected_frame_count src.frames.length mf := by
      cases mf with
      | none => exact hnpos
      | some m =>
        by_cases hm : m = 0
        · subst hm
          simpa [expected_frame_count] using hnpos
        · simp only [expected_frame_count, if_neg hm]
          omega
    omega
  | cons f0 rest0 =>
    unfold resize
    rw [if_pos hvalid]
    simp only [hf0, Bool.false_eq_true, false_and, if_false]
    by_cases hav : pyg.available = true
    · rw [if_pos hav]
      show Except.ok (get_frame_count _) = _
      rw [get_frame_count, optimize_preserves_frame_length pyg hpres]
      show Except.ok (f0 :: rest0).length = _
      rw [← hf0, hlen]
    · rw [if_neg hav]
      show Except.ok (get_frame_count _) = _
      rw [get_frame_count]
      show Except.ok (f0 :: rest0).length = _
      rw [← hf0, hlen]

/-- Witness for the amended C6 on a concrete three-frame source with a
truthy cap of 2: the round trip reports `min 3 2 = 2` frames. -/
theorem resize_frame_count_witness :
    (resize enc0 pyg0 src3 128 128 false (some 2)).map get_frame_count =
      Except.ok (expected_frame_count src3.frames.length (some 2)) :=
  resize_frame_count_roundtrip_amended enc0 pyg0 src3 128 128 (some 2)
    (fun _ _ _ hx => Option.noConfusion hx) (by decide) (by decide)

/-- The concrete direct-path output of `resize` on `src1` with cap `0`. -/
def c6Bytes : GifBytes :=
  { frames := [{ id := 0, width := 128, height := 128, colors := 256 }]
    duration := 100, loop := 0, size := 0 }

/-- C6 counterexample: with frame-count cap `c = 0` on a one-frame source
(`n = 1`), the claimed round-trip value is `min n c = 0`, but the code's
falsy-cap handling keeps the frame: inspection reports 1 frame. -/
theorem frame_count_zero_cap_counterexample :
    (resize enc0 pyg0 src1 128 128 false (some 0)).map get_frame_count = Except.ok 1
    ∧ (1 : Nat) ≠ min 1 0 := by
  exact ⟨rfl, by decide⟩

/-- C5 counterexample: `resize` with frame cap `0` on a (non-empty)
one-frame source does *not* fail with a decode error - the falsy cap is
ignored and the single resized frame is returned. -/
theorem zero_cap_returns_frames_counterexample :
    resize enc0 pyg0 src1 128 128 false (some 0) = Except.ok c6Bytes
    ∧ get_frame_count c6Bytes = 1 := by
  exact ⟨rfl, rfl⟩

/-- C5 as amended: a frame cap of `0` is falsy and therefore means "no
cap" (`resize` with cap 0 equals `resize` with no cap); `resize` raises
the "no valid frames" decode error exactly when the source decodes to
zero frames; and a successful result is never built from an empty frame
sequence (frame-count-preserving optimizer assumed). -/
theorem resize_zero_cap_amended (encSize : List Frame → SaveKwargs → Nat)
    (pyg : PygEnv) (src : SourceGif) (w h : Int) (slack : Bool) (out : GifBytes)
    (hvalid : (validate_image_size w h).1 = true)
    (hpres : ∀ lvl g g', pyg.run lvl g = some g' → g'.frames.length = g.frames.length) :
    (resize encSize pyg src w h slack (some 0) = resize encSize pyg src w h slack none)
    ∧ (src.frames = [] →
        resize encSize pyg src w h slack (some 0) = Except.error noValidFramesMsg)
    ∧ (resize encSize pyg src w h slack (some 0) = Except.ok out →
        0 < out.frames.length) := by
  refine ⟨?_, ?_, ?_⟩
  · have h1 : pyTruthy (some 0) = false := rfl
    have h2 : pyTruthy (none : Option Nat) = false := rfl
    simp only [resize, frameLoop_falsy w h (some 0) h1, frameLoop_falsy w h none h2,
      h1, h2, Bool.false_eq_true, and_false, if_false]
  · intro hsf
    unfold resize
    rw [if_pos hvalid, hsf]
    rfl
  · intro hok
    exact resize_ok_frames_pos encSize pyg src w h slack (some 0) out hpres hok

/-- Witness for the amended C5 at a concrete input: cap 0 equals no cap on
`src1`, and the successful result has a positive frame count. -/
theorem resize_zero_cap_witness :
    resize enc0 pyg0 src1 128 128 false (some 0) =
        resize enc0 pyg0 src1 128 128 false none
    ∧ 0 < c6Bytes.frames.length :=
  ⟨(resize_zero_cap_amended enc0 pyg0 src1 128 128 false c6Bytes (by decide)
      (fun _ _ _ hx => Option.noConfusion hx)).1,
   (resize_zero_cap_amended enc0 pyg0 src1 128 128 false c6Bytes (by decide)
      (fun _ _ _ hx => Option.noConfusion hx)).2.2 rfl⟩

/-! ## Claim C9 - the UltraReduction rung -/

/-- Element-level description of the striding loop: position `i` of the
output is source frame `(idx + i) * 2`, resized and quantized to 64
colors, as long as the fuel lasts and the seek does not hit `EOFError`. -/
theorem ultraStrideAux_get (fs : List Frame) :
    ∀ (fuel idx i : Nat),
      (ultraStrideAux fs fuel idx).get? i =
        if i < fuel then
          (fs.get? ((idx + i) * 2)).map
            (fun f => quantize 64 (resizeFrame SLACK_STAMP_SIZE SLACK_STAMP_SIZE f))
        else none := by
  intro fuel
  induction fuel with
  | zero =>
    intro idx i
    simp [ultraStrideAux]
  | succ n ih =>
    intro idx i
    rw [ultraStrideAux]
    cases hg : fs.get? (idx * 2) with
    | none =>
      have hnone : fs.get? ((idx + i) * 2) = none := by
        rw [List.get?_eq_none] at hg ⊢
        omega
      rw [hnone]
      simp
    | some f =>
      cases i with
      | zero =>
        rw [List.get?_cons_zero, if_pos (Nat.succ_pos n), Nat.add_zero, hg]
        rfl
      | succ j =>
        rw [List.get?_cons_succ, ih (idx + 1) j]
        have harith : idx + 1 + j = idx + (j + 1) := by omega
        rw [harith]
        by_cases hj : j < n
        · rw [if_pos hj, if_pos (by omega)]
        · rw [if_neg hj, if_neg (by omega)]

/-- The striding loop produces at most `fuel` frames. -/
theorem ultraStrideAux_length (fs : List Frame) :
    ∀ (fuel idx : Nat), (ultraStrideAux fs fuel idx).length ≤ fuel := by
  intro fuel
  induction fuel with
  | zero => intro idx; simp [ultraStrideAux]
  | succ n ih =>
    intro idx
    rw [ultraStrideAux]
    cases hg : fs.get? (idx * 2) with
    | none => simp
    | some f =>
      rw [List.length_cons]
      exact Nat.succ_le_succ (ih (idx + 1))

/-- C9 as amended: the UltraReduction rung takes every 2nd source frame
capped at 10, quantizes each taken frame to 64 colors (the dead
single-frame fallback would use 32), fixes the 30 ms duration, and encodes
exactly once - a single `save` with `ultraSaveKwargs`, no quality-descent
retry - but it fixes quality at 1, PIL's minimum, and *not* at the
configured quality floor `SLACK_OPTIMIZATION_QUALITY_MIN = 5`. -/
theorem ultra_reduction_amended (encSize : List Frame → SaveKwargs → Nat)
    (pyg : PygEnv) (b : GifBytes) (f0 : Frame) (rest : List Frame)
    (hne : b.frames = f0 :: rest) :
    (ultra_optimize_for_slack encSize pyg b =
        Except.ok (optimize_with_pygifsicle pyg
          (save encSize (ultraStride b.frames) ultraSaveKwargs) "aggressive"))
    ∧ (∀ i, (ultraStride b.frames).get? i =
        if i < 10 then
          (b.frames.get? (i * 2)).map
            (fun f => quantize 64 (resizeFrame SLACK_STAMP_SIZE SLACK_STAMP_SIZE f))
        else none)
    ∧ (ultraStride b.frames).length ≤ 10
    ∧ ultraSaveKwargs.quality = some 1
    ∧ ultraSaveKwargs.duration = SLACK_AGGRESSIVE_DURATION := by
  have hget : ∀ i, (ultraStride b.frames).get? i =
      if i < 10 then
        (b.frames.get? (i * 2)).map
          (fun f => quantize 64 (resizeFrame SLACK_STAMP_SIZE SLACK_STAMP_SIZE f))
      else none := by
    intro i
    rw [ultraStride, ultraStrideAux_get b.frames 10 0 i]
    rw [Nat.zero_add]
  have hstride_ne : ultraStride b.frames ≠ [] := by
    intro hnil
    have h0 := hget 0
    rw [hnil] at h0
    rw [hne] at h0
    simp at h0
  refine ⟨?_, hget, ultraStrideAux_length b.frames 10 0, rfl, rfl⟩
  unfold ultra_optimize_for_slack
  cases hst : ultraStride b.frames with
  | nil => exact absurd hst hstride_ne
  | cons g gs =>
    simp only [hst]

/-- Witness for the amended C9: on a concrete one-frame input the ultra
rung is exactly one encode of the strided frames with `ultraSaveKwargs`. -/
theorem ultra_reduction_witness :
    ultra_optimize_for_slack enc0 pyg0 c6Bytes =
      Except.ok (optimize_with_pygifsicle pyg0
        (save enc0 (ultraStride c6Bytes.frames) ultraSaveKwargs) "aggressive") :=
  (ultra_reduction_amended enc0 pyg0 c6Bytes
    { id := 0, width := 128, height := 128, colors := 256 } [] rfl).1

/-- The encode observer used by the C9 counterexample: the reported byte
size is the quality handed to the encoder. -/
def qualityObserver : List Frame → SaveKwargs → Nat := fun _ k => k.quality.getD 0

/-- C9 counterexample: the ultra rung's encode parameters fix quality at 1,
not at the configured floor 5 - observed both on the `save_kwargs` bundle
and on a concrete run whose encoder reports the quality it received. -/
theorem ultra_quality_not_floor_counterexample :
    ultraSaveKwargs.quality = some 1
    ∧ SLACK_OPTIMIZATION_QUALITY_MIN = 5
    ∧ ultraSaveKwargs.quality ≠ some SLACK_OPTIMIZATION_QUALITY_MIN
    ∧ (ultra_optimize_for_slack qualityObserver pyg0 c6Bytes).map GifBytes.size =
        Except.ok 1 := by
  exact ⟨rfl, rfl, by decide, rfl⟩

/-! ## Claim C10 - aspect-ratio adjustment (supporting result only)

The Python code computes with IEEE-754 doubles; the claim's bound is
settled here only for the exact-rational idealization of that arithmetic
(see the comment on `adjust_size_for_aspect_ratio_rat`). -/

/-- Under exact rational arithmetic, the aspect-preserving adjustment
always fits inside the requested target box. -/
theorem adjust_size_fits_target_box_rat (tw th ow oh : Int)
    (htw : 1 ≤ tw) (hth : 1 ≤ th) (how : 1 ≤ ow) (hoh : 1 ≤ oh) :
    (adjust_size_for_aspect_ratio_rat tw th ow oh).1 ≤ tw
    ∧ (adjust_size_for_aspect_ratio_rat tw th ow oh).2 ≤ th := by
  have hohQ : (0 : ℚ) < (oh : ℚ) := by exact_mod_cast (show (0 : Int) < oh by omega)
  have hthQ : (0 : ℚ) < (th : ℚ) := by exact_mod_cast (show (0 : Int) < th by omega)
  have howQ : (0 : ℚ) < (ow : ℚ) := by exact_mod_cast (show (0 : Int) < ow by omega)
  have hthne : (th : ℚ) ≠ 0 := ne_of_gt hthQ
  have har : calculate_aspect_ratio_rat ow oh = (ow : ℚ) / (oh : ℚ) := by
    rw [calculate_aspect_ratio_rat, if_neg (show ¬ oh = 0 by omega)]
  have htr : calculate_aspect_ratio_rat tw th = (tw : ℚ) / (th : ℚ) := by
    rw [calculate_aspect_ratio_rat, if_neg (show ¬ th = 0 by omega)]
  have harpos : (0 : ℚ) < (ow : ℚ) / (oh : ℚ) := div_pos howQ hohQ
  have hmul : (th : ℚ) * ((tw : ℚ) / (th : ℚ)) = (tw : ℚ) := by
    field_simp
  simp only [adjust_size_for_aspect_ratio_rat, har, htr]
  by_cases hcase : (ow : ℚ) / (oh : ℚ) < (tw : ℚ) / (th : ℚ)
  · rw [if_pos hcase]
    refine ⟨?_, le_refl th⟩
    have hlt : (th : ℚ) * ((ow : ℚ) / (oh : ℚ)) < (tw : ℚ) := by
      calc (th : ℚ) * ((ow : ℚ) / (oh : ℚ))
          < (th : ℚ) * ((tw : ℚ) / (th : ℚ)) := by
            exact mul_lt_mul_of_pos_left hcase hthQ
        _ = (tw : ℚ) := hmul
    exact le_of_lt (Int.floor_lt.mpr hlt)
  · rw [if_neg hcase]
    refine ⟨le_refl tw, ?_⟩
    have hle : (tw : ℚ) / ((ow : ℚ) / (oh : ℚ)) ≤ (th : ℚ) := by
      rw [div_le_iff₀ harpos]
      have h2 : (tw : ℚ) / (th : ℚ) ≤ (ow : ℚ) / (oh : ℚ) := le_of_not_lt hcase
      calc (tw : ℚ) = (th : ℚ) * ((tw : ℚ) / (th : ℚ)) := hmul.symm
        _ ≤ (th : ℚ) * ((ow : ℚ) / (oh : ℚ)) :=
            mul_le_mul_of_nonneg_left h2 (le_of_lt hthQ)
    calc ⌊(tw : ℚ) / ((ow : ℚ) / (oh : ℚ))⌋ ≤ ⌊(th : ℚ)⌋ := Int.floor_le_floor hle
      _ = th := Int.floor_intCast th

end GifResizer
